import Mathlib

/-!
Shallow embedding of the authentication module of the `willpower` teaching
repository: the `POST /api/register` and `POST /api/login` handlers and the
protected `GET /api/profile` / `GET /api/users` routes (source file
`src/unnamed/part_001`), the `verifyToken` middleware (inlined in
`src/ThingsToLearn/5-Authentication+JWT/README.md`), and the `users` table
schema (`data.js`).  External libraries (bcrypt, jsonwebtoken) are modelled
abstractly, faithful to their documented contracts as restated in the
repository's own comments and in the specification.
-/

/-- A row of the `users` table:
`id INTEGER PRIMARY KEY AUTOINCREMENT, username TEXT UNIQUE, email TEXT UNIQUE,
password_hash TEXT, created_at DATETIME DEFAULT CURRENT_TIMESTAMP`. -/
structure Account where
  id : Nat
  username : String
  email : String
  password_hash : Nat × String
  created_at : Nat
deriving DecidableEq

/-- The SQLite store together with the AUTOINCREMENT counter.  Rows are kept
in insertion order; `SELECT ... .get` returns the first matching row. -/
structure DB where
  users : List Account
  nextId : Nat
deriving DecidableEq

/-- Modelled from the spec: the Credential Verifier (`bcrypt`, not part of
this repository).  `hash(plaintext)` is a salted one-way transformation whose
output embeds the salt; we model the digest as the pair (salt, plaintext),
which is faithful to the abstract contract that `verify` can recompute the
hash from the salt embedded in the digest. -/
def bcryptHash (plaintext : String) (salt : Nat) : Nat × String :=
  (salt, plaintext)

/-- Modelled from the spec: `bcrypt.compare(password, digest)` recomputes the
hash using the salt embedded in the digest and returns true only on exact
match. -/
def bcryptCompare (password : String) (digest : Nat × String) : Bool :=
  password == digest.2

/-- Identity claims placed in the JWT payload by the login handler:
`{ userId: user.id, username: user.username, email: user.email }`. -/
structure Claims where
  userId : Nat
  username : String
  email : String
deriving DecidableEq

/-- The decoded JWT payload: the application claims augmented with the
issued-at (`iat`) and expiry (`exp`) timestamps added by `jwt.sign`. -/
structure TokenPayload where
  claims : Claims
  iat : Nat
  exp : Nat
deriving DecidableEq

/-- Modelled from the spec: a signed token.  `sig` stands for the HMAC
signature computed over the encoded payload with the secret: it binds both
the secret and the exact payload (an ideal unforgeable MAC). -/
structure Token where
  payload : TokenPayload
  sig : String × TokenPayload
deriving DecidableEq

/-- Failure modes of token verification. -/
inductive VerifyErr where
  | malformed
  | invalidSignature
  | expired
deriving DecidableEq

/-- Modelled from the spec: `jwt.sign(payload, secret, expiresIn: ttl)` at
current time `now` — serializes the claims augmented with `iat = now` and
`exp = now + ttl` and signs them with the secret. -/
def jwtSign (claims : Claims) (secret : String) (ttl : Nat) (now : Nat) : Token :=
  let payload : TokenPayload := ⟨claims, now, now + ttl⟩
  ⟨payload, (secret, payload)⟩

/-- Modelled from the spec: `jwt.verify(token, secret)` at current time
`now` — checks the signature first, then treats the token as expired once
`now ≥ exp` (the library's inclusive boundary), and otherwise returns the
decoded payload. -/
def jwtVerify (t : Token) (secret : String) (now : Nat) : Except VerifyErr TokenPayload :=
  if (t.sig.1 == secret && t.sig.2 == t.payload) = false then
    .error .invalidSignature
  else if t.payload.exp ≤ now then
    .error .expired
  else
    .ok t.payload

/-- A JSON error body `{ error, message }` as produced by the handlers. -/
structure ErrBody where
  error : String
  message : String
deriving DecidableEq

/-- JavaScript truthiness of a possibly-absent string field: `!field` is
true when the field is absent or the empty string. -/
def present : Option String → Bool
  | none => false
  | some s => s != ""

/-- Request body of `POST /api/register`. -/
structure RegisterReq where
  username : Option String
  email : Option String
  password : Option String
deriving DecidableEq

/-- The `{ id, username, email }` account summary returned by register and
login (no digest field exists in this shape). -/
structure UserOut where
  id : Nat
  username : String
  email : String
deriving DecidableEq

/-- Response of the register handler: an error status with its JSON body, or
the 201 created response `{ user: { id, username, email } }`. -/
inductive RegisterResp where
  | err (status : Nat) (body : ErrBody)
  | created (user : UserOut)
deriving DecidableEq

/-- HTTP status of a register response (`res.status(...)`; the success
branch is `res.status(201)`). -/
def RegisterResp.status : RegisterResp → Nat
  | .err s _ => s
  | .created _ => 201

/-- The `POST /api/register` handler (`src/unnamed/part_001`, lines 64–145):
validate presence of all three fields, check the password length, check for
an existing row with the same username or email, then hash and insert. -/
def register (db : DB) (req : RegisterReq) (salt : Nat) (now : Nat) :
    RegisterResp × DB :=
  if (!present req.username || !present req.email || !present req.password) = true then
    (.err 400 ⟨"Validation failed", "Username, email, and password are required"⟩, db)
  else
    let username := req.username.getD ""
    let email := req.email.getD ""
    let password := req.password.getD ""
    if password.length < 6 then
      (.err 400 ⟨"Validation failed", "Password must be at least 6 characters long"⟩, db)
    else
      match db.users.find? (fun a => a.username == username || a.email == email) with
      | some _ =>
          (.err 400 ⟨"User already exists", "Username or email is already taken"⟩, db)
      | none =>
          let acct : Account :=
            ⟨db.nextId, username, email, bcryptHash password salt, now⟩
          (.created ⟨db.nextId, username, email⟩,
           ⟨db.users ++ [acct], db.nextId + 1⟩)

/-- Request body of `POST /api/login`. -/
structure LoginReq where
  username : Option String
  password : Option String
deriving DecidableEq

/-- Response of the login handler: an error status with its JSON body, or
the 200 response `{ token, expiresIn, user }`. -/
inductive LoginResp where
  | err (status : Nat) (body : ErrBody)
  | ok (token : Token) (expiresIn : String) (user : UserOut)
deriving DecidableEq

/-- HTTP status of a login response (`res.json` without `res.status` sends
200). -/
def LoginResp.status : LoginResp → Nat
  | .err s _ => s
  | .ok _ _ _ => 200

/-- Seconds in the `'24h'` token lifetime passed to `jwt.sign`. -/
def ttl24h : Nat := 24 * 60 * 60

/-- The `POST /api/login` handler (`src/unnamed/part_001`, lines 155–258):
validate presence, look up the row by username, compare the password against
the stored digest, then sign and return a 24-hour token. -/
def login (db : DB) (req : LoginReq) (secret : String) (now : Nat) : LoginResp :=
  if (!present req.username || !present req.password) = true then
    .err 400 ⟨"Validation failed", "Username and password are required"⟩
  else
    let username := req.username.getD ""
    let password := req.password.getD ""
    match db.users.find? (fun a => a.username == username) with
    | none =>
        .err 401 ⟨"Authentication failed", "Invalid username or password"⟩
    | some user =>
        if bcryptCompare password user.password_hash = false then
          .err 401 ⟨"Authentication failed", "Invalid username or password"⟩
        else
          .ok (jwtSign ⟨user.id, user.username, user.email⟩ secret ttl24h now)
            "24h" ⟨user.id, user.username, user.email⟩

/-- JavaScript `s.split(' ')` on the character list: splits at every single
space, keeping empty pieces (so `"".split(' ') = [""]` and
`"a  b".split(' ') = ["a","","b"]`). -/
def jsSplitSpaceAux : List Char → List Char → List String
  | [], acc => [String.mk acc.reverse]
  | c :: rest, acc =>
      if c == ' ' then String.mk acc.reverse :: jsSplitSpaceAux rest []
      else jsSplitSpaceAux rest (c :: acc)

/-- JavaScript `s.split(' ')`. -/
def jsSplitSpace (s : String) : List String :=
  jsSplitSpaceAux s.data []

/-- `authHeader.split(' ')[1]`, with JavaScript's `undefined` for a missing
index collapsed with the empty string: both are falsy, which is the only way
the middleware inspects this value. -/
def extractToken (authHeader : String) : String :=
  (jsSplitSpace authHeader).getD 1 ""

/-- Outcome of the `verifyToken` middleware: a 401 rejection with its JSON
body, or `next()` with the decoded payload attached as `req.user`. -/
inductive GuardResult where
  | reject (status : Nat) (body : ErrBody)
  | proceed (user : TokenPayload)
deriving DecidableEq

/-- The `verifyToken` middleware
(`src/ThingsToLearn/5-Authentication+JWT/README.md`, auth.js section):
reject when the Authorization header is absent; otherwise take the second
space-separated piece and reject when it is falsy; otherwise run
`jwt.verify` — modelled by the abstract verification function `vf`, since
the middleware sees the token only as a string — and reject on any
verification error, else proceed with the decoded payload. -/
def authGuard (vf : String → Except VerifyErr TokenPayload)
    (authHeader : Option String) : GuardResult :=
  match authHeader with
  | none =>
      .reject 401 ⟨"Access denied", "No token provided. Please login first."⟩
  | some h =>
      let token := extractToken h
      if token == "" then
        .reject 401 ⟨"Access denied", "Invalid token format. Use: Bearer <token>"⟩
      else
        match vf token with
        | .error _ =>
            .reject 401 ⟨"Invalid token", "Token is invalid or expired. Please login again."⟩
        | .ok decoded => .proceed decoded

/-- The `SELECT id, username, email, created_at` projection used by the
profile and users routes: the digest column is not selected. -/
structure UserFull where
  id : Nat
  username : String
  email : String
  created_at : Nat
deriving DecidableEq

/-- Response of `GET /api/profile`: 404 when the account vanished, else 200
with the projected user record and the `tokenInfo` echo
`{ userId, username, tokenIssuedAt }`. -/
inductive ProfileResp where
  | notFound (status : Nat) (error : String)
  | ok (user : UserFull) (tokenUserId : Nat) (tokenUsername : String) (tokenIat : Nat)
deriving DecidableEq

/-- The `GET /api/profile` handler (`src/unnamed/part_001`, lines 268–289):
look up `id, username, email, created_at` by the token's `userId`. -/
def profile (db : DB) (reqUser : TokenPayload) : ProfileResp :=
  match db.users.find? (fun a => a.id == reqUser.claims.userId) with
  | none => .notFound 404 "User not found"
  | some u =>
      .ok ⟨u.id, u.username, u.email, u.created_at⟩
        reqUser.claims.userId reqUser.claims.username reqUser.iat

/-- Response of `GET /api/users`: `{ requestedBy, count, users }`. -/
structure UsersResp where
  requestedBy : String
  count : Nat
  users : List UserFull
deriving DecidableEq

/-- The `GET /api/users` handler (`src/unnamed/part_001`, lines 298–310):
`SELECT id, username, email, created_at FROM users` for every row. -/
def usersRoute (db : DB) (reqUser : TokenPayload) : UsersResp :=
  ⟨reqUser.claims.username, db.users.length,
   db.users.map (fun a => ⟨a.id, a.username, a.email, a.created_at⟩)⟩

example : jsSplitSpace "Bearer abc" = ["Bearer", "abc"] := by decide

example : jsSplitSpace "" = [""] := by decide

example : jsSplitSpace "a  b" = ["a", "", "b"] := by decide

example : extractToken "Bearer" = "" := by decide

example : extractToken "Basic xyz" = "xyz" := by decide

example : (register ⟨[], 1⟩ ⟨some "alice", some "a@b.c", some "secret1"⟩ 7 0).1
    = .created ⟨1, "alice", "a@b.c"⟩ := by decide

example :
    login ⟨[⟨1, "alice", "a@b.c", bcryptHash "secret1" 7, 0⟩], 2⟩
      ⟨some "alice", some "secret1"⟩ "s" 5
    = .ok (jwtSign ⟨1, "alice", "a@b.c"⟩ "s" ttl24h 5) "24h" ⟨1, "alice", "a@b.c"⟩ := by
  decide

example :
    login ⟨[⟨1, "alice", "a@b.c", bcryptHash "secret1" 7, 0⟩], 2⟩
      ⟨some "alice", some "wrong0"⟩ "s" 5
    = .err 401 ⟨"Authentication failed", "Invalid username or password"⟩ := by decide

/-! ## Helper lemmas -/

theorem find?_append_of_none {α} (p : α → Bool) (l1 l2 : List α)
    (h : l1.find? p = none) : (l1 ++ l2).find? p = l2.find? p := by
  induction l1 with
  | nil => rfl
  | cons a t ih =>
      rw [List.find?] at h
      cases hpa : p a with
      | true => simp [hpa] at h
      | false =>
          simp only [hpa] at h
          simp only [List.cons_append, List.find?, hpa]
          exact ih h

theorem string_ne_empty_of_length (s : String) (h : 6 ≤ s.length) : s ≠ "" := by
  intro hs
  subst hs
  simp [String.length] at h

/-! ## Claim theorems -/

/-- C5: verifying a token produced by issuing claims with a secret and a ttl,
with the same secret and at any time from issuance strictly before the ttl
elapses, succeeds and returns the claims augmented only with the issued-at
and expiry timestamps. -/
theorem jwt_roundtrip (claims : Claims) (secret : String) (ttl now t : Nat)
    (_h1 : now ≤ t) (h2 : t < now + ttl) :
    jwtVerify (jwtSign claims secret ttl now) secret t
      = .ok ⟨claims, now, now + ttl⟩ := by
  simp only [jwtSign, jwtVerify, beq_self_eq_true, Bool.and_self]
  simp only [show (true = false) = False by simp, if_false]
  rw [if_neg (by omega)]

theorem jwt_roundtrip_witness :
    (100 : Nat) ≤ 105 ∧ (105 : Nat) < 100 + 10 ∧
    jwtVerify (jwtSign ⟨1, "alice", "a@b.c"⟩ "s" 10 100) "s" 105
      = .ok ⟨⟨1, "alice", "a@b.c"⟩, 100, 100 + 10⟩ :=
  ⟨by decide, by decide,
   jwt_roundtrip ⟨1, "alice", "a@b.c"⟩ "s" 10 100 105 (by decide) (by decide)⟩

/-- C6: for any positive ttl, verification at exactly the expiry instant
`now + ttl` fails as expired, while verification one unit of time earlier
succeeds: the expiry boundary is inclusive (current time ≥ expiry means
expired). -/
theorem jwt_expiry_boundary (claims : Claims) (secret : String) (ttl now : Nat)
    (h : 1 ≤ ttl) :
    jwtVerify (jwtSign claims secret ttl now) secret (now + ttl)
      = .error .expired ∧
    jwtVerify (jwtSign claims secret ttl now) secret (now + ttl - 1)
      = .ok ⟨claims, now, now + ttl⟩ := by
  constructor
  · simp only [jwtSign, jwtVerify, beq_self_eq_true, Bool.and_self]
    simp only [show (true = false) = False by simp, if_false]
    rw [if_pos (by omega)]
  · exact jwt_roundtrip claims secret ttl now (now + ttl - 1) (by omega) (by omega)

theorem jwt_expiry_boundary_witness :
    (1 : Nat) ≤ 10 ∧
    (jwtVerify (jwtSign ⟨1, "alice", "a@b.c"⟩ "s" 10 100) "s" 110
        = .error .expired ∧
     jwtVerify (jwtSign ⟨1, "alice", "a@b.c"⟩ "s" 10 100) "s" 109
        = .ok ⟨⟨1, "alice", "a@b.c"⟩, 100, 110⟩) :=
  ⟨by decide, jwt_expiry_boundary ⟨1, "alice", "a@b.c"⟩ "s" 10 100 (by decide)⟩

/-- C2: a login with both fields present fails with status 401 and the very
same `{ error, message }` body whether the username is unknown or the
username is known and the password fails verification: the two failure
causes are indistinguishable to the caller. -/
theorem login_failures_indistinguishable (db : DB) (u p : String)
    (secret : String) (now : Nat) (hu : u ≠ "") (hp : p ≠ "") :
    (db.users.find? (fun a => a.username == u) = none →
       login db ⟨some u, some p⟩ secret now
         = .err 401 ⟨"Authentication failed", "Invalid username or password"⟩) ∧
    (∀ a, db.users.find? (fun a => a.username == u) = some a →
       bcryptCompare p a.password_hash = false →
       login db ⟨some u, some p⟩ secret now
         = .err 401 ⟨"Authentication failed", "Invalid username or password"⟩) := by
  have hpu : (!present (some u) || !present (some p)) = false := by
    simp [present, hu, hp]
  constructor
  · intro hfind
    simp [login, hpu, hfind]
  · intro a hfind hcmp
    simp [login, hpu, hfind, hcmp]

theorem login_failures_indistinguishable_witness :
    login ⟨[⟨1, "alice", "a@b.c", bcryptHash "secret1" 7, 0⟩], 2⟩
        ⟨some "bob", some "secret1"⟩ "s" 0
      = .err 401 ⟨"Authentication failed", "Invalid username or password"⟩ ∧
    login ⟨[⟨1, "alice", "a@b.c", bcryptHash "secret1" 7, 0⟩], 2⟩
        ⟨some "alice", some "wrong0"⟩ "s" 0
      = .err 401 ⟨"Authentication failed", "Invalid username or password"⟩ :=
  ⟨(login_failures_indistinguishable ⟨[⟨1, "alice", "a@b.c", bcryptHash "secret1" 7, 0⟩], 2⟩
      "bob" "secret1" "s" 0 (by decide) (by decide)).1 (by decide),
   (login_failures_indistinguishable ⟨[⟨1, "alice", "a@b.c", bcryptHash "secret1" 7, 0⟩], 2⟩
      "alice" "wrong0" "s" 0 (by decide) (by decide)).2
     ⟨1, "alice", "a@b.c", bcryptHash "secret1" 7, 0⟩ (by decide) (by decide)⟩

/-- C9: every register call that returns an error response leaves the store
unchanged, and all such error responses carry status 400: the failure
branches return before the INSERT runs. -/
theorem register_failure_preserves_store (db : DB) (req : RegisterReq)
    (salt now : Nat) (st : Nat) (b : ErrBody) (db' : DB)
    (h : register db req salt now = (.err st b, db')) :
    st = 400 ∧ db' = db := by
  unfold register at h
  split at h
  · simp only [Prod.mk.injEq, RegisterResp.err.injEq] at h
    exact ⟨h.1.1.symm, h.2.symm⟩
  · dsimp only at h
    split at h
    · simp only [Prod.mk.injEq, RegisterResp.err.injEq] at h
      exact ⟨h.1.1.symm, h.2.symm⟩
    · split at h
      · simp only [Prod.mk.injEq, RegisterResp.err.injEq] at h
        exact ⟨h.1.1.symm, h.2.symm⟩
      · simp only [Prod.mk.injEq] at h
        exact absurd h.1 (by simp)

theorem register_failure_preserves_store_witness :
    register ⟨[], 1⟩ ⟨some "alice", some "a@b.c", some "abc"⟩ 7 0
      = (.err 400 ⟨"Validation failed", "Password must be at least 6 characters long"⟩,
         ⟨[], 1⟩) ∧
    (400 : Nat) = 400 ∧ (⟨[], 1⟩ : DB) = ⟨[], 1⟩ :=
  ⟨by decide,
   register_failure_preserves_store ⟨[], 1⟩ ⟨some "alice", some "a@b.c", some "abc"⟩
     7 0 400 ⟨"Validation failed", "Password must be at least 6 characters long"⟩
     ⟨[], 1⟩ (by decide)⟩

/-- C10: a required field equal to the empty string is treated exactly like
an absent field by both handlers (JavaScript falsiness): the call fails with
the same 400 validation response, the store is unchanged, and — since the
result is the same constant for every store — a login with an empty-string
password is rejected before any lookup or password comparison. -/
theorem empty_fields_treated_as_missing :
    (∀ (db : DB) (e p : Option String) (salt now : Nat),
       register db ⟨some "", e, p⟩ salt now = register db ⟨none, e, p⟩ salt now ∧
       register db ⟨none, e, p⟩ salt now
         = (.err 400 ⟨"Validation failed", "Username, email, and password are required"⟩, db)) ∧
    (∀ (db : DB) (u p : Option String) (salt now : Nat),
       register db ⟨u, some "", p⟩ salt now = register db ⟨u, none, p⟩ salt now ∧
       register db ⟨u, none, p⟩ salt now
         = (.err 400 ⟨"Validation failed", "Username, email, and password are required"⟩, db)) ∧
    (∀ (db : DB) (u e : Option String) (salt now : Nat),
       register db ⟨u, e, some ""⟩ salt now = register db ⟨u, e, none⟩ salt now ∧
       register db ⟨u, e, none⟩ salt now
         = (.err 400 ⟨"Validation failed", "Username, email, and password are required"⟩, db)) ∧
    (∀ (db : DB) (p : Option String) (secret : String) (now : Nat),
       login db ⟨some "", p⟩ secret now = login db ⟨none, p⟩ secret now ∧
       login db ⟨none, p⟩ secret now
         = .err 400 ⟨"Validation failed", "Username and password are required"⟩) ∧
    (∀ (db : DB) (u : Option String) (secret : String) (now : Nat),
       login db ⟨u, some ""⟩ secret now = login db ⟨u, none⟩ secret now ∧
       login db ⟨u, none⟩ secret now
         = .err 400 ⟨"Validation failed", "Username and password are required"⟩) := by
  refine ⟨fun db e p salt now => ⟨?_, ?_⟩, fun db u p salt now => ⟨?_, ?_⟩,
    fun db u e salt now => ⟨?_, ?_⟩, fun db p secret now => ⟨?_, ?_⟩,
    fun db u secret now => ⟨?_, ?_⟩⟩ <;>
  simp [register, login, present]

/-- C1: when all three fields are present, the password has length at least
6, and no stored account has the requested username or email, register
succeeds with status 201 and appends exactly one account, and a subsequent
login with the same username and password succeeds with status 200 and
returns a signed 24-hour token. -/
theorem register_then_login_roundtrip (db : DB) (u e p : String)
    (salt now : Nat) (secret : String) (now2 : Nat)
    (hu : u ≠ "") (he : e ≠ "") (hp6 : 6 ≤ p.length)
    (hfree : db.users.find? (fun a => a.username == u || a.email == e) = none) :
    register db ⟨some u, some e, some p⟩ salt now
      = (.created ⟨db.nextId, u, e⟩,
         ⟨db.users ++ [⟨db.nextId, u, e, bcryptHash p salt, now⟩], db.nextId + 1⟩) ∧
    (RegisterResp.created ⟨db.nextId, u, e⟩).status = 201 ∧
    login ⟨db.users ++ [⟨db.nextId, u, e, bcryptHash p salt, now⟩], db.nextId + 1⟩
        ⟨some u, some p⟩ secret now2
      = .ok (jwtSign ⟨db.nextId, u, e⟩ secret ttl24h now2) "24h" ⟨db.nextId, u, e⟩ ∧
    (LoginResp.ok (jwtSign ⟨db.nextId, u, e⟩ secret ttl24h now2) "24h"
      ⟨db.nextId, u, e⟩).status = 200 := by
  have hp : p ≠ "" := string_ne_empty_of_length p hp6
  have hcond : (!present (some u) || !present (some e) || !present (some p)) = false := by
    simp [present, hu, he, hp]
  refine ⟨?_, rfl, ?_, rfl⟩
  · simp [register, hcond, hfree, show ¬ p.length < 6 by omega]
  · have husers :
        (db.users ++ [(⟨db.nextId, u, e, bcryptHash p salt, now⟩ : Account)]).find?
            (fun a => a.username == u)
          = some ⟨db.nextId, u, e, bcryptHash p salt, now⟩ := by
      rw [find?_append_of_none]
      · simp [List.find?]
      · rw [List.find?_eq_none] at hfree ⊢
        intro a ha hcontra
        exact hfree a ha (by simp_all)
    have hcond2 : (!present (some u) || !present (some p)) = false := by
      simp [present, hu, hp]
    simp only [login, hcond2, Bool.false_eq_true, if_false, Option.getD]
    rw [husers]
    simp [bcryptCompare, bcryptHash]

theorem register_then_login_roundtrip_witness :
    register ⟨[], 1⟩ ⟨some "alice", some "alice@example.com", some "secret1"⟩ 7 0
      = (.created ⟨1, "alice", "alice@example.com"⟩,
         ⟨[⟨1, "alice", "alice@example.com", bcryptHash "secret1" 7, 0⟩], 2⟩) ∧
    (RegisterResp.created ⟨1, "alice", "alice@example.com"⟩).status = 201 ∧
    login ⟨[⟨1, "alice", "alice@example.com", bcryptHash "secret1" 7, 0⟩], 2⟩
        ⟨some "alice", some "secret1"⟩ "s" 5
      = .ok (jwtSign ⟨1, "alice", "alice@example.com"⟩ "s" ttl24h 5) "24h"
          ⟨1, "alice", "alice@example.com"⟩ ∧
    (LoginResp.ok (jwtSign ⟨1, "alice", "alice@example.com"⟩ "s" ttl24h 5) "24h"
      ⟨1, "alice", "alice@example.com"⟩).status = 200 :=
  register_then_login_roundtrip ⟨[], 1⟩ "alice" "alice@example.com" "secret1" 7 0 "s" 5
    (by decide) (by decide) (by decide) (by decide)

/-- C7: a register call with a missing (falsy) field, or with all fields
present but a password shorter than 6 characters, fails with a 400
validation body; a call with all fields present, an acceptable password,
and a stored row matching the requested username or email fails with the
400 duplicate body; in particular a second register with the username of a
previously created account fails with the duplicate body; in every failure
case the store is returned unchanged. -/
theorem register_validation_duplicate_semantics :
    (∀ (db : DB) (req : RegisterReq) (salt now : Nat),
       (present req.username = false ∨ present req.email = false ∨
        present req.password = false) →
       register db req salt now
         = (.err 400 ⟨"Validation failed", "Username, email, and password are required"⟩,
            db)) ∧
    (∀ (db : DB) (req : RegisterReq) (salt now : Nat),
       present req.username = true → present req.email = true →
       present req.password = true → (req.password.getD "").length < 6 →
       register db req salt now
         = (.err 400 ⟨"Validation failed", "Password must be at least 6 characters long"⟩,
            db)) ∧
    (∀ (db : DB) (req : RegisterReq) (salt now : Nat) (a : Account),
       present req.username = true → present req.email = true →
       present req.password = true → ¬ (req.password.getD "").length < 6 →
       db.users.find?
           (fun x => x.username == req.username.getD "" || x.email == req.email.getD "")
         = some a →
       register db req salt now
         = (.err 400 ⟨"User already exists", "Username or email is already taken"⟩, db)) ∧
    (∀ (db : DB) (u e p e2 p2 : String) (salt now salt2 now2 : Nat)
       (user : UserOut) (db' : DB),
       register db ⟨some u, some e, some p⟩ salt now = (.created user, db') →
       e2 ≠ "" → 6 ≤ p2.length →
       register db' ⟨some u, some e2, some p2⟩ salt2 now2
         = (.err 400 ⟨"User already exists", "Username or email is already taken"⟩, db')) := by
  refine ⟨?_, ?_, ?_, ?_⟩
  · intro db req salt now h
    have hc : (!present req.username || !present req.email || !present req.password) = true := by
      rcases h with h | h | h <;> simp [h]
    simp [register, hc]
  · intro db req salt now h1 h2 h3 hlen
    simp [register, h1, h2, h3, hlen]
  · intro db req salt now a h1 h2 h3 hlen hdup
    simp [register, h1, h2, h3, hlen, hdup]
  · intro db u e p e2 p2 salt now salt2 now2 user db' h he2 hp2
    have hp2ne : p2 ≠ "" := string_ne_empty_of_length p2 hp2
    unfold register at h
    split at h
    · exact absurd h (by simp)
    · rename_i hcond1
      dsimp only at h
      split at h
      · exact absurd h (by simp)
      · split at h
        · exact absurd h (by simp)
        · simp only [Prod.mk.injEq, RegisterResp.created.injEq] at h
          obtain ⟨-, hdb'⟩ := h
          have hu : u ≠ "" := by
            intro hu0
            subst hu0
            simp [present] at hcond1
          have hcond2 :
              (!present (some u) || !present (some e2) || !present (some p2)) = false := by
            simp [present, hu, he2, hp2ne]
          have hmem :
              ((db'.users).find? (fun x => x.username == u || x.email == e2)).isSome := by
            refine List.find?_isSome.mpr
              ⟨⟨db.nextId, u, e, bcryptHash p salt, now⟩, ?_, by simp⟩
            rw [← hdb']
            simp
          obtain ⟨b, hb⟩ := Option.isSome_iff_exists.mp hmem
          simp [register, hcond2, show ¬ p2.length < 6 by omega, hb]

theorem register_validation_duplicate_semantics_witness :
    register ⟨[], 1⟩ ⟨some "alice", some "alice@example.com", some "secret1"⟩ 7 0
      = (.created ⟨1, "alice", "alice@example.com"⟩,
         ⟨[⟨1, "alice", "alice@example.com", bcryptHash "secret1" 7, 0⟩], 2⟩) ∧
    register ⟨[⟨1, "alice", "alice@example.com", bcryptHash "secret1" 7, 0⟩], 2⟩
        ⟨some "alice", some "other@example.com", some "hunter2"⟩ 9 3
      = (.err 400 ⟨"User already exists", "Username or email is already taken"⟩,
         ⟨[⟨1, "alice", "alice@example.com", bcryptHash "secret1" 7, 0⟩], 2⟩) :=
  ⟨by decide,
   register_validation_duplicate_semantics.2.2.2
     ⟨[], 1⟩ "alice" "alice@example.com" "secret1" "other@example.com" "hunter2"
     7 0 9 3 ⟨1, "alice", "alice@example.com"⟩
     ⟨[⟨1, "alice", "alice@example.com", bcryptHash "secret1" 7, 0⟩], 2⟩
     (by decide) (by decide) (by decide)⟩

/-- C8: every success body is built exclusively from the identifier,
username, email and (where selected) creation time of the rows involved:
the register summary is the request's fields plus the fresh id, the login
body and the signed token claims are the projection of the matched row, and
the profile and users routes return the `SELECT id, username, email,
created_at` projection — none of these shapes carries the password digest. -/
theorem success_bodies_exclude_digest :
    (∀ (db : DB) (req : RegisterReq) (salt now : Nat) (user : UserOut) (db' : DB),
       register db req salt now = (.created user, db') →
       user = ⟨db.nextId, req.username.getD "", req.email.getD ""⟩) ∧
    (∀ (db : DB) (req : LoginReq) (secret : String) (now : Nat)
       (t : Token) (ex : String) (uo : UserOut),
       login db req secret now = .ok t ex uo →
       ∃ a, a ∈ db.users ∧ uo = ⟨a.id, a.username, a.email⟩ ∧
         t = jwtSign ⟨a.id, a.username, a.email⟩ secret ttl24h now ∧ ex = "24h") ∧
    (∀ (db : DB) (ru : TokenPayload) (a : Account),
       db.users.find? (fun x => x.id == ru.claims.userId) = some a →
       profile db ru = .ok ⟨a.id, a.username, a.email, a.created_at⟩
         ru.claims.userId ru.claims.username ru.iat) ∧
    (∀ (db : DB) (ru : TokenPayload),
       usersRoute db ru = ⟨ru.claims.username, db.users.length,
         db.users.map (fun a => ⟨a.id, a.username, a.email, a.created_at⟩)⟩) := by
  refine ⟨?_, ?_, ?_, fun db ru => rfl⟩
  · intro db req salt now user db' h
    unfold register at h
    split at h
    · exact absurd h (by simp)
    · dsimp only at h
      split at h
      · exact absurd h (by simp)
      · split at h
        · exact absurd h (by simp)
        · simp only [Prod.mk.injEq, RegisterResp.created.injEq] at h
          exact h.1.symm
  · intro db req secret now t ex uo h
    unfold login at h
    split at h
    · exact absurd h (by simp)
    · dsimp only at h
      split at h
      · exact absurd h (by simp)
      · rename_i a hfind
        split at h
        · exact absurd h (by simp)
        · simp only [LoginResp.ok.injEq] at h
          exact ⟨a, List.mem_of_find?_eq_some hfind, h.2.2.symm, h.1.symm, h.2.1.symm⟩
  · intro db ru a hfind
    simp [profile, hfind]

theorem success_bodies_exclude_digest_witness :
    profile ⟨[⟨1, "alice", "alice@example.com", bcryptHash "secret1" 7, 0⟩], 2⟩
        ⟨⟨1, "alice", "alice@example.com"⟩, 5, 100⟩
      = .ok ⟨1, "alice", "alice@example.com", 0⟩ 1 "alice" 5 :=
  success_bodies_exclude_digest.2.2.1
    ⟨[⟨1, "alice", "alice@example.com", bcryptHash "secret1" 7, 0⟩], 2⟩
    ⟨⟨1, "alice", "alice@example.com"⟩, 5, 100⟩
    ⟨1, "alice", "alice@example.com", bcryptHash "secret1" 7, 0⟩ (by decide)

/-- C3 counterexample: for the header `"Basic x"` — present, two
space-separated parts, but with first part `"Basic"` rather than the
literal scheme `"Bearer"` — the middleware does not produce the
malformed-format rejection: it extracts `"x"` and runs verification on it,
rejecting with the invalid-token body when verification fails, and even
proceeding to the downstream handler when the extracted string verifies. -/
theorem authGuard_scheme_not_checked :
    authGuard (fun _ => .error .invalidSignature) (some "Basic x")
      = .reject 401 ⟨"Invalid token", "Token is invalid or expired. Please login again."⟩ ∧
    authGuard (fun _ => .ok ⟨⟨1, "alice", "a@b.c"⟩, 0, 10⟩) (some "Basic x")
      = .proceed ⟨⟨1, "alice", "a@b.c"⟩, 0, 10⟩ ∧
    (⟨"Invalid token", "Token is invalid or expired. Please login again."⟩ : ErrBody)
      ≠ ⟨"Access denied", "Invalid token format. Use: Bearer <token>"⟩ := by
  refine ⟨by decide, by decide, by decide⟩

/-- C3 (amended): the middleware rejects with 401 and the missing-token body
when the Authorization header is absent; with 401 and the bad-format body
exactly when the second space-separated piece of the header is absent or
empty (the literal scheme word is never inspected); with 401 and the
invalid-token body when the extracted piece fails verification; and proceeds
with the decoded payload whenever the extracted piece verifies, regardless
of the scheme word. -/
theorem authGuard_branch_semantics (vf : String → Except VerifyErr TokenPayload) :
    authGuard vf none
      = .reject 401 ⟨"Access denied", "No token provided. Please login first."⟩ ∧
    (∀ h, extractToken h = "" →
       authGuard vf (some h)
         = .reject 401 ⟨"Access denied", "Invalid token format. Use: Bearer <token>"⟩) ∧
    (∀ h e, extractToken h ≠ "" → vf (extractToken h) = .error e →
       authGuard vf (some h)
         = .reject 401 ⟨"Invalid token", "Token is invalid or expired. Please login again."⟩) ∧
    (∀ h d, extractToken h ≠ "" → vf (extractToken h) = .ok d →
       authGuard vf (some h) = .proceed d) := by
  refine ⟨rfl, ?_, ?_, ?_⟩
  · intro h hh
    simp [authGuard, hh]
  · intro h e hne hv
    simp [authGuard, hne, hv]
  · intro h d hne hv
    simp [authGuard, hne, hv]

theorem authGuard_branch_semantics_witness :
    extractToken "Bearer abc" ≠ "" ∧
    authGuard (fun _ => .error .expired) (some "Bearer abc")
      = .reject 401 ⟨"Invalid token", "Token is invalid or expired. Please login again."⟩ :=
  ⟨by decide,
   (authGuard_branch_semantics (fun _ => .error .expired)).2.2.1 "Bearer abc" .expired
     (by decide) rfl⟩

/-- C4 counterexample: the three rejection branches of the middleware all
carry status 401 but pairwise distinct `{ error, message }` bodies, so the
response body does reveal which of the three failure modes occurred. -/
theorem authGuard_bodies_distinguish_modes :
    authGuard (fun _ => .error .invalidSignature) none
      = .reject 401 ⟨"Access denied", "No token provided. Please login first."⟩ ∧
    authGuard (fun _ => .error .invalidSignature) (some "Bearer")
      = .reject 401 ⟨"Access denied", "Invalid token format. Use: Bearer <token>"⟩ ∧
    authGuard (fun _ => .error .invalidSignature) (some "Bearer abc")
      = .reject 401 ⟨"Invalid token", "Token is invalid or expired. Please login again."⟩ ∧
    (⟨"Access denied", "No token provided. Please login first."⟩ : ErrBody)
      ≠ ⟨"Access denied", "Invalid token format. Use: Bearer <token>"⟩ ∧
    (⟨"Access denied", "No token provided. Please login first."⟩ : ErrBody)
      ≠ ⟨"Invalid token", "Token is invalid or expired. Please login again."⟩ ∧
    (⟨"Access denied", "Invalid token format. Use: Bearer <token>"⟩ : ErrBody)
      ≠ ⟨"Invalid token", "Token is invalid or expired. Please login again."⟩ := by
  refine ⟨by decide, by decide, by decide, by decide, by decide, by decide⟩

/-- C4 (amended): every rejection by the middleware carries status 401 — the
status is uniform across the three failure modes — and its body is one of
the three branch-specific `{ error, message }` bodies; those bodies are
pairwise distinct, so the body (unlike the status) reveals the failure
mode. -/
theorem authGuard_reject_status_401 (vf : String → Except VerifyErr TokenPayload)
    (h : Option String) (st : Nat) (b : ErrBody)
    (hr : authGuard vf h = .reject st b) :
    st = 401 ∧
    (b = ⟨"Access denied", "No token provided. Please login first."⟩ ∨
     b = ⟨"Access denied", "Invalid token format. Use: Bearer <token>"⟩ ∨
     b = ⟨"Invalid token", "Token is invalid or expired. Please login again."⟩) := by
  cases h with
  | none =>
      simp only [authGuard, GuardResult.reject.injEq] at hr
      exact ⟨hr.1.symm, .inl hr.2.symm⟩
  | some s =>
      simp only [authGuard] at hr
      split at hr
      · simp only [GuardResult.reject.injEq] at hr
        exact ⟨hr.1.symm, .inr (.inl hr.2.symm)⟩
      · split at hr
        · simp only [GuardResult.reject.injEq] at hr
          exact ⟨hr.1.symm, .inr (.inr hr.2.symm)⟩
        · exact absurd hr (by simp)

theorem authGuard_reject_status_401_witness :
    (401 : Nat) = 401 ∧
    ((⟨"Access denied", "No token provided. Please login first."⟩ : ErrBody)
       = ⟨"Access denied", "No token provided. Please login first."⟩ ∨
     (⟨"Access denied", "No token provided. Please login first."⟩ : ErrBody)
       = ⟨"Access denied", "Invalid token format. Use: Bearer <token>"⟩ ∨
     (⟨"Access denied", "No token provided. Please login first."⟩ : ErrBody)
       = ⟨"Invalid token", "Token is invalid or expired. Please login again."⟩) :=
  authGuard_reject_status_401 (fun _ => .error .expired) none 401
    ⟨"Access denied", "No token provided. Please login first."⟩ (by decide)
